import Mathlib

/-!
# A shallow embedding of the puppet-dash runner's physics core

This file embeds, in Lean 4 over exact rational arithmetic, the per-frame
physics, movement-mode state machine and chunked collision system of the
game (the `update` loop and `triggerInteraction` of the game canvas
component), and proves properties of that embedding.

Coordinates, velocities and all numeric constants are `ℚ` (the source uses
IEEE doubles, but every operation relevant here - additions, comparisons,
multiplications, divisions by small constants - is exact on the inputs
considered, so the rational model is faithful).  Player rotation is purely
cosmetic (it feeds only the renderer, uses transcendental functions, and is
read by no physics branch), so it is not part of the modelled state.
Object `id` and `z` fields are inert to physics and likewise omitted.
-/

namespace PuppetDash

/-- The nine movement modes of the player (`PlayerMode` in the source). -/
inductive Mode
  | CUBE | SHIP | BALL | UFO | WAVE | ROBOT | SPIDER | SWING | JETPACK
deriving DecidableEq

/-- The static object types (`ObjectType` in the source): solid blocks,
lethal spikes, and the nine mode-changing portals. -/
inductive ObjectType
  | BLOCK | SPIKE
  | PORTAL_SHIP | PORTAL_BALL | PORTAL_UFO | PORTAL_WAVE | PORTAL_ROBOT
  | PORTAL_SPIDER | PORTAL_SWING | PORTAL_JETPACK | PORTAL_CUBE
deriving DecidableEq

/-- A static level object.  The source's `id` (a string) and `z`
(draw order) take no part in physics and are omitted. -/
structure GameObject where
  type : ObjectType
  x : ℚ
  y : ℚ
deriving DecidableEq

/-- The simulation state: the player fields of `stateRef` together with the
physics-relevant refs of the component (`onSurfaceRef`, `robotJumpFrames`,
`actionBufferActive`). -/
structure SimState where
  x : ℚ
  y : ℚ
  vy : ℚ
  mode : Mode
  gravityDir : ℤ
  isDead : Bool
  isJumping : Bool
  onSurface : Bool
  robotJumpFrames : ℕ
  actionBufferActive : Bool
deriving DecidableEq

/-- Discrete events emitted by the simulation for the audio/VFX
collaborators: jump sound, death sound, portal morph (flash/shake/ring,
tagged with the portal type), spider teleport trail. -/
inductive Event
  | jump | death | morph (t : ObjectType) | teleport
deriving DecidableEq

/-! ## Constants

The constants below `SHIP_THRUST .. CHUNK_SIZE` are copied verbatim from
the top of the game-canvas source file. -/

def SHIP_THRUST : ℚ := -13/20
def SHIP_GRAVITY : ℚ := 2/5
def JETPACK_THRUST : ℚ := -3/4
def JETPACK_GRAVITY : ℚ := 9/20
def BALL_GRAVITY : ℚ := 7/10
def UFO_GRAVITY : ℚ := 3/5
def UFO_JUMP : ℚ := -9
def WAVE_SPEED_Y : ℚ := 6
def ROBOT_JUMP_INITIAL : ℚ := -7
def ROBOT_JUMP_SUSTAIN : ℚ := -4/5
def ROBOT_MAX_JUMP_FRAMES : ℕ := 12
def SWING_GRAVITY : ℚ := 1/2
def MAX_VY : ℚ := 12
def MIN_WIN_DISTANCE : ℚ := 3000
def CHUNK_SIZE : ℚ := 600

/-- Modelled from the spec: `PLAYER_SIZE` lives in the repository's
`constants.ts`, which is not under `src/`.  The spec fixes the floor at
`y = 360` while the renderer draws the ground line at 400, and the level
editor snaps objects to a 40-unit grid, so the player tile is 40 units. -/
def PLAYER_SIZE : ℚ := 40

/-- Modelled from the spec: `BLOCK_SIZE` lives in the missing
`constants.ts`; the editor grid and AI level generator space objects in
40-unit increments, so the block tile is 40 units. -/
def BLOCK_SIZE : ℚ := 40

/-- Modelled from the spec: `GRAVITY` (the Cube/Robot/Spider per-frame
gravity) lives in the missing `constants.ts`.  Its exact magnitude is not
stated by the spec; it is modelled as the representative positive value
4/5, in scale with the mode-specific gravities that are in the source
(0.4 .. 0.7). -/
def GRAVITY : ℚ := 4/5

/-- Modelled from the spec: `JUMP_FORCE` (the Cube jump impulse) lives in
the missing `constants.ts`; modelled as the representative value -11
(upward, larger in magnitude than the source's `ROBOT_JUMP_INITIAL = -7`). -/
def JUMP_FORCE : ℚ := -11

/-- `pointInTriangle` from the source: barycentric sign test used by the
spike hit test. -/
def pointInTriangle (px py x1 y1 x2 y2 x3 y3 : ℚ) : Bool :=
  let area := (1/2) * (-y2 * x3 + y1 * (-x2 + x3) + x1 * (y2 - y3) + x2 * y3)
  let s := 1 / (2 * area) * (y1 * x3 - x1 * y3 + (y3 - y1) * px + (x1 - x3) * py)
  let t := 1 / (2 * area) * (x1 * y2 - y1 * x2 + (y1 - y2) * px + (x2 - x1) * py)
  decide (0 ≤ s) && decide (0 ≤ t) && decide (0 ≤ 1 - s - t)

/-- The portal-type → target-mode mapping of the portal collision branch
(`PORTAL_SHIP → SHIP`, ..., `PORTAL_CUBE → CUBE`); `none` for the
non-portal object types. -/
def portalMap : ObjectType → Option Mode
  | .PORTAL_SHIP => some .SHIP
  | .PORTAL_BALL => some .BALL
  | .PORTAL_UFO => some .UFO
  | .PORTAL_WAVE => some .WAVE
  | .PORTAL_ROBOT => some .ROBOT
  | .PORTAL_SPIDER => some .SPIDER
  | .PORTAL_SWING => some .SWING
  | .PORTAL_JETPACK => some .JETPACK
  | .PORTAL_CUBE => some .CUBE
  | .BLOCK => none
  | .SPIKE => none

/-- `gravityDir === 1 ? -1 : 1` - the gravity flip used by the Ball,
Swing and Spider interactions. -/
def flipGrav (g : ℤ) : ℤ := if g = 1 then -1 else 1

/-- Chunk id of an x coordinate: `Math.floor(x / CHUNK_SIZE)`. -/
def chunkId (x : ℚ) : ℤ := ⌊x / CHUNK_SIZE⌋

/-- The objects of one chunk, in level insertion order (the source builds
the chunk map by pushing objects in `level.objects` order). -/
def chunkObjs (level : List GameObject) (c : ℤ) : List GameObject :=
  level.filter (fun o => chunkId o.x = c)

/-- Candidate gathering: the source loops `c = pChunk - 1 .. pChunk + 2`
and concatenates each chunk's object list. -/
def gather (level : List GameObject) (px : ℚ) : List GameObject :=
  let p := chunkId px
  chunkObjs level (p - 1) ++ chunkObjs level p ++
    chunkObjs level (p + 1) ++ chunkObjs level (p + 2)

/-- Resolution of a single candidate object in one sub-step, mirroring the
body of the `for (const obj of ...)` loop.  `pvX` is the frame-level
pre-step x (`prevX`), `ipY` the pre-sub-step y (`internalPrevY`),
`phX`/`phY` the corner of the shrunk hit box captured at the top of the
sub-step (the spike test reads these captured values, while the block and
portal tests read the live player position).  Returns the new state, the
emitted events, and whether the loop `break`s. -/
def resolveObject (pvX ipY phX phY : ℚ) (s : SimState) (obj : GameObject) :
    SimState × List Event × Bool :=
  match obj.type with
  | .SPIKE =>
    let x1 := obj.x + 8
    let y1 := obj.y + BLOCK_SIZE - 2
    let x2 := obj.x + BLOCK_SIZE / 2
    let y2 := obj.y + 8
    let x3 := obj.x + BLOCK_SIZE - 8
    let y3 := obj.y + BLOCK_SIZE - 2
    let phW := PLAYER_SIZE - 8
    let corners : List (ℚ × ℚ) :=
      [(phX, phY), (phX + phW, phY), (phX, phY + phW), (phX + phW, phY + phW)]
    if corners.any (fun c => pointInTriangle c.1 c.2 x1 y1 x2 y2 x3 y3) then
      ({s with isDead := true}, [Event.death], true)
    else (s, [], false)
  | .BLOCK =>
    if s.x < obj.x + BLOCK_SIZE ∧ s.x + PLAYER_SIZE > obj.x ∧
        s.y < obj.y + BLOCK_SIZE ∧ s.y + PLAYER_SIZE > obj.y then
      if s.mode = Mode.WAVE then
        ({s with isDead := true}, [Event.death], true)
      else
        let tolerance : ℚ := 12
        if ipY + PLAYER_SIZE ≤ obj.y + tolerance ∧
            s.vy * (s.gravityDir : ℚ) ≥ 0 ∧ s.gravityDir = 1 then
          ({s with
              y := obj.y - PLAYER_SIZE, vy := 0, isJumping := false
              onSurface := true}, [], false)
        else if ipY ≥ obj.y + BLOCK_SIZE - tolerance ∧
            s.vy * (s.gravityDir : ℚ) ≥ 0 ∧ s.gravityDir = -1 then
          ({s with
              y := obj.y + BLOCK_SIZE, vy := 0, isJumping := false
              onSurface := true}, [], false)
        else
          ({s with isDead := true}, [Event.death], true)
    else (s, [], false)
  | t =>
    match portalMap t with
    | none => (s, [], false)
    | some m =>
      let portalY := obj.y + BLOCK_SIZE / 2 - 150 / 2
      if s.x < obj.x + BLOCK_SIZE ∧ s.x + PLAYER_SIZE > obj.x ∧
          s.y < portalY + 150 ∧ s.y + PLAYER_SIZE > portalY then
        if pvX + PLAYER_SIZE ≤ obj.x + 15 then
          if s.mode ≠ m then
            ({s with mode := m, gravityDir := 1}, [Event.morph t], false)
          else
            ({s with mode := m}, [], false)
        else (s, [], false)
      else (s, [], false)

/-- The candidate loop of one sub-step: objects are visited in candidate
order; a `break` (set only by the three death branches) stops the loop. -/
def resolveObjects (pvX ipY phX phY : ℚ) :
    SimState → List GameObject → SimState × List Event
  | s, [] => (s, [])
  | s, o :: rest =>
    let r := resolveObject pvX ipY phX phY s o
    if r.2.2 then (r.1, r.2.1)
    else
      let rr := resolveObjects pvX ipY phX phY r.1 rest
      (rr.1, r.2.1 ++ rr.2)

/-- The world-bound clamp of each sub-step: floor at `y = 360`, ceiling at
`y = 0`; clamping zeroes `vy`, clears the jumping flag and grounds the
player. -/
def applyBounds (s : SimState) : SimState :=
  if s.y ≥ 360 then
    {s with y := 360, vy := 0, isJumping := false, onSurface := true}
  else if s.y ≤ 0 then
    {s with y := 0, vy := 0, isJumping := false, onSurface := true}
  else s

/-- One sub-step of the integrator: capture `internalPrevY`, advance the
position, clamp to the world bounds, capture the shrunk hit box, gather
candidates around the new x, and run the candidate loop. -/
def subStep (level : List GameObject) (pvX stepX stepY : ℚ) (s : SimState) :
    SimState × List Event :=
  let ipY := s.y
  let s1 := {s with x := s.x + stepX, y := s.y + stepY}
  let s2 := applyBounds s1
  let phX := s2.x + 4
  let phY := s2.y + 4
  resolveObjects pvX ipY phX phY s2 (gather level s2.x)

/-- The sub-step loop (`for (let st = 0; st < steps; st++)`), aborting the
remaining sub-steps once the player is dead. -/
def stepsLoop (level : List GameObject) (pvX stepX stepY : ℚ) :
    ℕ → SimState → SimState × List Event
  | 0, s => (s, [])
  | n + 1, s =>
    if s.isDead then (s, [])
    else
      let r := subStep level pvX stepX stepY s
      let rr := stepsLoop level pvX stepX stepY n r.1
      (rr.1, r.2 ++ rr.2)

/-- The per-frame velocity phase (mode physics table): computes the frame
vy before clamping, together with the updated robot sustain counter. -/
def modeVelocity (held : Bool) (s : SimState) : ℚ × ℕ :=
  match s.mode with
  | .CUBE | .ROBOT | .SPIDER =>
    if s.mode = Mode.ROBOT ∧ held = true ∧ 0 < s.robotJumpFrames ∧
        s.robotJumpFrames < ROBOT_MAX_JUMP_FRAMES then
      (s.vy + ROBOT_JUMP_SUSTAIN * (s.gravityDir : ℚ) +
        GRAVITY * (s.gravityDir : ℚ), s.robotJumpFrames + 1)
    else (s.vy + GRAVITY * (s.gravityDir : ℚ), 0)
  | .SHIP =>
    (s.vy + SHIP_GRAVITY + (if held then SHIP_THRUST else 0), s.robotJumpFrames)
  | .JETPACK =>
    (s.vy + JETPACK_GRAVITY + (if held then JETPACK_THRUST else 0),
      s.robotJumpFrames)
  | .SWING => (s.vy + SWING_GRAVITY * (s.gravityDir : ℚ), s.robotJumpFrames)
  | .BALL => (s.vy + BALL_GRAVITY * (s.gravityDir : ℚ), s.robotJumpFrames)
  | .UFO => (s.vy + UFO_GRAVITY, s.robotJumpFrames)
  | .WAVE =>
    ((if held then -WAVE_SPEED_Y else WAVE_SPEED_Y), s.robotJumpFrames)

/-- The frame-vy clamp to `[-MAX_VY, MAX_VY]`. -/
def clampVy (v : ℚ) : ℚ :=
  if v > MAX_VY then MAX_VY else if v < -MAX_VY then -MAX_VY else v

/-- `steps = Math.max(1, Math.ceil(settings.speed / 4))`. -/
def steps (speed : ℚ) : ℤ := max 1 ⌈speed / 4⌉

/-- The inner candidate test of the spider teleport scan at one probe
height `y`: the first block (in candidate order) overlapping the player's
x extent whose surface intercepts the probe, with its snap height. -/
def spiderHit (px : ℚ) (g : ℤ) (y : ℚ) (cands : List GameObject) : Option ℚ :=
  cands.findSome? (fun o =>
    if o.type = ObjectType.BLOCK ∧ px < o.x + BLOCK_SIZE ∧
        px + PLAYER_SIZE > o.x then
      if g = 1 ∧ y + PLAYER_SIZE ≥ o.y ∧ y < o.y then
        some (o.y - PLAYER_SIZE)
      else if g = -1 ∧ y ≤ o.y + BLOCK_SIZE ∧ y > o.y then
        some (o.y + BLOCK_SIZE)
      else none
    else none)

/-- The spider teleport scan loop: probe heights advance by `5 * g` while
inside the world (`y < 360` downward, `y > 0` upward); the first hit wins.
The source loop steps by a fixed increment toward a fixed bound, so a fuel
argument strictly larger than the number of probes inside the world gives
the exact loop semantics. -/
def spiderScanAux (px : ℚ) (g : ℤ) (cands : List GameObject) :
    ℕ → ℚ → Option ℚ
  | 0, _ => none
  | fuel + 1, y =>
    if (if g = 1 then y < 360 else y > 0) then
      match spiderHit px g y cands with
      | some snapY => some snapY
      | none => spiderScanAux px g cands fuel (y + 5 * g)
    else none

/-- Fuel bound for the spider scan: enough probes to cross the whole
world span at increment 5, plus slack for the terminating bound check. -/
def spiderFuel (g : ℤ) (y0 : ℚ) : ℕ :=
  if g = 1 then (⌈(360 - y0) / 5⌉).toNat + 2 else (⌈y0 / 5⌉).toNat + 2

/-- `triggerInteraction`: the discrete interaction event, dispatched on the
current mode.  `isAutoJump` marks the auto-repeat interaction synthesized
on landing while the input is held. -/
def triggerInteraction (isAutoJump : Bool) (level : List GameObject)
    (s : SimState) : SimState × List Event :=
  if s.isDead then (s, [])
  else
    match s.mode with
    | .CUBE =>
      if s.onSurface then
        ({s with
            vy := JUMP_FORCE * (s.gravityDir : ℚ), isJumping := true
            onSurface := false}, [Event.jump])
      else (s, [])
    | .BALL =>
      if s.onSurface then
        ({s with
            gravityDir := flipGrav s.gravityDir, vy := 0
            onSurface := false}, [Event.jump])
      else (s, [])
    | .UFO =>
      if isAutoJump = false ∨ s.onSurface then
        ({s with vy := UFO_JUMP, onSurface := false}, [Event.jump])
      else (s, [])
    | .ROBOT =>
      if s.onSurface then
        ({s with
            vy := ROBOT_JUMP_INITIAL * (s.gravityDir : ℚ)
            isJumping := true, onSurface := false, robotJumpFrames := 1},
          [Event.jump])
      else (s, [])
    | .SWING =>
      if isAutoJump = false ∨ s.onSurface then
        ({s with gravityDir := flipGrav s.gravityDir, onSurface := false},
          [Event.jump])
      else (s, [])
    | .SPIDER =>
      if s.onSurface then
        let g2 := flipGrav s.gravityDir
        let cands := gather level s.x
        let y1 := s.y + 5 * (g2 : ℚ)
        let res := spiderScanAux s.x g2 cands (spiderFuel g2 y1) y1
        let curY :=
          match res with
          | some cy => cy
          | none => if g2 = 1 then (360 : ℚ) else 0
        ({s with gravityDir := g2, vy := 0, y := curY, onSurface := true},
          [Event.jump, Event.teleport])
      else (s, [])
    | _ => (s, [])

/-- The end-of-frame action buffer: if the input is held, the player is
grounded and no auto-repeat fired since this grounding began, synthesize
one auto interaction and arm the buffer; the buffer disarms whenever the
player leaves the surface. -/
def autoPhase (held : Bool) (level : List GameObject) (s : SimState) :
    SimState × List Event :=
  if held = true ∧ s.onSurface = true ∧ s.actionBufferActive = false then
    let t := triggerInteraction true level s
    ({t.1 with actionBufferActive := true}, t.2)
  else if s.onSurface = false then
    ({s with actionBufferActive := false}, [])
  else (s, [])

/-- One frame of `update`: early-out when already dead; otherwise capture
`prevX`, run the velocity phase and clamp, derive the sub-step counts and
displacements, run the sub-step loop, then the auto-interaction buffer,
and finally report whether the win threshold was crossed. -/
def updateFrame (speed : ℚ) (held : Bool) (winX : ℚ)
    (level : List GameObject) (s : SimState) :
    SimState × List Event × Bool :=
  if s.isDead then (s, [], false)
  else
    let pvX := s.x
    let n := steps speed
    let stepX := speed / (n : ℚ)
    let v := modeVelocity held s
    let s1 := {s with vy := clampVy v.1, robotJumpFrames := v.2}
    let stepY := s1.vy / (n : ℚ)
    let r := stepsLoop level pvX stepX stepY n.toNat s1
    let a := autoPhase held level r.1
    (a.1, r.2 ++ a.2, decide (a.1.x > winX))

/-- `lastObjX`: the largest object x of the level
(`reduce(Math.max, 0)`). -/
def lastObjX (objs : List GameObject) : ℚ :=
  objs.foldl (fun m o => max m o.x) 0

/-- `winX`, computed once at level load. -/
def winDistance (objs : List GameObject) : ℚ :=
  max MIN_WIN_DISTANCE (lastObjX objs + 1000)

/-- The completion percentage shown each frame. -/
def completionPct (x winX : ℚ) : ℚ := min 100 (x / winX * 100)

/-- The initial player state of `stateRef` (with the initial values of the
physics refs). -/
def initState : SimState :=
  { x := 50, y := 360, vy := 0, mode := .CUBE, gravityDir := 1
    isDead := false, isJumping := false, onSurface := false
    robotJumpFrames := 0, actionBufferActive := false }

/-! ## Concrete test fixtures used by counterexamples and witnesses -/

/-- A cube falling onto a block top, one sub-step into a frame: position
`(100, 165)` with pre-sub-step y `150`, falling (`vy = 6`). -/
def fallingCube : SimState :=
  { x := 100, y := 165, vy := 6, mode := .CUBE, gravityDir := 1
    isDead := false, isJumping := true, onSurface := false
    robotJumpFrames := 0, actionBufferActive := false }

/-- A block whose top the falling cube lands on. -/
def landBlock : GameObject := ⟨.BLOCK, 100, 200⟩

/-- A spike placed so that the captured (pre-snap) hit box of
`fallingCube` pokes into its triangle. -/
def lateSpike : GameObject := ⟨.SPIKE, 110, 170⟩

/-- A level consisting of a single block close below the upper world
bound (`y = 30 < PLAYER_SIZE`), legal in the editor. -/
def ceilingBlockLevel : List GameObject := [⟨.BLOCK, 40, 30⟩]

/-- The player starting a frame at the upper world bound, above
`ceilingBlockLevel`'s block. -/
def ceilingStart : SimState := { initState with y := 0 }

/-- A Swing-mode player in mid air. -/
def swingMidAir : SimState := { initState with mode := .SWING, y := 100 }

/-- A Ball-mode player resting on the floor. -/
def ballOnFloor : SimState := { initState with mode := .BALL, onSurface := true }

/-- The level of the Robot-sustain reachability run: a Ship portal the
robot flies through mid-sustain, and a Robot portal the ship passes while
grounded. -/
def reachLevel : List GameObject :=
  [⟨.PORTAL_SHIP, 100, 300⟩, ⟨.PORTAL_ROBOT, 400, 300⟩]

/-- One frame over `reachLevel` at scroll speed 5 (state part only). -/
def frameStep (held : Bool) (s : SimState) : SimState :=
  (updateFrame 5 held 3000 reachLevel s).1

/-- A Robot start state resting on the floor. -/
def robotStart : SimState := { initState with mode := .ROBOT, onSurface := true }

/-- A reachable grounded Robot with a live sustain counter: hold for 3
frames (the auto-interaction jumps, the jump flies through the Ship
portal with `robotJumpFrames = 3` preserved, since the Ship velocity
branch never touches the counter), release for 40 frames (the ship falls
and lands, grounding the player), then hold for 20 frames (the grounded
ship drifts through the Robot portal; the grounded flag is never
cleared). -/
def robotReach : SimState :=
  (frameStep true)^[20] ((frameStep false)^[40] ((frameStep true)^[3] robotStart))

/-- An airborne Robot one frame into a sustained jump. -/
def robotAirborne : SimState :=
  { initState with
    mode := .ROBOT, y := 200, vy := -7, onSurface := false
    robotJumpFrames := 1 }

/-- A Spider-mode player in mid air. -/
def spiderMidAir : SimState := { initState with mode := .SPIDER, y := 100, vy := 3 }

/-- A cube overlapping a block at `(200, 320)` after falling from above:
live position `(190, 285)`, pre-sub-step y `276`. -/
def cubeOnBlock : SimState :=
  { x := 190, y := 285, vy := 6, mode := .CUBE, gravityDir := 1
    isDead := false, isJumping := true, onSurface := false
    robotJumpFrames := 0, actionBufferActive := false }

/-- A Ship-mode player straddling a portal at `x = 200` beyond the
leading-edge epsilon. -/
def shipStraddling : SimState :=
  { x := 190, y := 180, vy := 0, mode := .SHIP, gravityDir := 1
    isDead := false, isJumping := false, onSurface := false
    robotJumpFrames := 0, actionBufferActive := false }

/-! ## Theorems -/

/-- C9: for every scroll speed `S`, the sub-step count is
`max(1, ceil(S / 4))`, hence positive and (as a rational divisor for
`stepX = S/steps` and `stepY = vy/steps`) never zero. -/
theorem steps_never_zero (speed : ℚ) :
    steps speed = max 1 ⌈speed / 4⌉ ∧ 0 < steps speed ∧
      ((steps speed : ℤ) : ℚ) ≠ 0 := by
  refine ⟨rfl, ?_, ?_⟩
  · exact lt_of_lt_of_le one_pos (le_max_left _ _)
  · have h : (0 : ℤ) < steps speed :=
      lt_of_lt_of_le one_pos (le_max_left _ _)
    exact_mod_cast ne_of_gt h

/-- C10 (implicit): in Spider mode the per-frame velocity update is plain
Cube gravity, `vy + GRAVITY * gravityDir`, with no thrust term (and the
robot sustain counter is reset); between interactions a Spider player
falls exactly like a Cube player at the same state. -/
theorem spider_falls_like_cube (held : Bool) (s : SimState)
    (h : s.mode = Mode.SPIDER) :
    modeVelocity held s = (s.vy + GRAVITY * (s.gravityDir : ℚ), 0) ∧
    (modeVelocity held s).1 =
      (modeVelocity held {s with mode := Mode.CUBE}).1 := by
  obtain ⟨x, y, vy, mode, g, d, j, os, fr, ab⟩ := s
  simp only at h
  subst h
  simp [modeVelocity]

/-- Witness for C10 at a concrete airborne spider state. -/
theorem spider_falls_like_cube_witness :
    spiderMidAir.mode = Mode.SPIDER ∧
    modeVelocity true spiderMidAir =
      (spiderMidAir.vy + GRAVITY * (spiderMidAir.gravityDir : ℚ), 0) :=
  ⟨rfl, (spider_falls_like_cube true spiderMidAir rfl).1⟩

/-- C7 (amended): in Robot mode the sustain acceleration
`ROBOT_JUMP_SUSTAIN * gravityDir` is added to vy exactly when thrust is
held and the sustain counter satisfies `0 < robotJumpFrames <
ROBOT_MAX_JUMP_FRAMES` (there is no grounded check in this condition);
gravity `GRAVITY * gravityDir` is added regardless; the counter
increments while sustaining and resets to 0 otherwise. -/
theorem robot_sustain_formula (held : Bool) (s : SimState)
    (h : s.mode = Mode.ROBOT) :
    modeVelocity held s =
      (s.vy +
        (if held = true ∧ 0 < s.robotJumpFrames ∧
            s.robotJumpFrames < ROBOT_MAX_JUMP_FRAMES then
          ROBOT_JUMP_SUSTAIN * (s.gravityDir : ℚ) else 0) +
        GRAVITY * (s.gravityDir : ℚ),
      if held = true ∧ 0 < s.robotJumpFrames ∧
          s.robotJumpFrames < ROBOT_MAX_JUMP_FRAMES then
        s.robotJumpFrames + 1 else 0) := by
  obtain ⟨x, y, vy, mode, g, d, j, os, fr, ab⟩ := s
  simp only at h
  subst h
  simp only [modeVelocity]
  split_ifs with hc h2 <;> simp_all

/-- Witness for C7's amended theorem at a concrete airborne sustaining
robot state. -/
theorem robot_sustain_formula_witness :
    robotAirborne.mode = Mode.ROBOT ∧
    modeVelocity true robotAirborne =
      (robotAirborne.vy + ROBOT_JUMP_SUSTAIN * (robotAirborne.gravityDir : ℚ) +
        GRAVITY * (robotAirborne.gravityDir : ℚ),
       robotAirborne.robotJumpFrames + 1) := by
  refine ⟨rfl, ?_⟩
  have h := robot_sustain_formula true robotAirborne rfl
  rw [h]
  with_unfolding_all decide

set_option maxRecDepth 16000 in
/-- Counterexample for C7 as stated: `robotReach` is a state reached by
running whole frames from a grounded Robot start over `reachLevel`; it is
a live, grounded Robot whose sustain counter sits at 3.  The claim
requires no sustain term on the next frame because the player is
grounded, but the velocity phase does add it: the computed frame vy is
`vy + ROBOT_JUMP_SUSTAIN + GRAVITY`, different from the gravity-only
`vy + GRAVITY`, and the counter advances to 4 instead of resetting. -/
theorem robot_sustain_grounded_counterexample :
    robotReach.mode = Mode.ROBOT ∧ robotReach.onSurface = true ∧
    robotReach.robotJumpFrames = 3 ∧ robotReach.isDead = false ∧
    modeVelocity true robotReach =
      (robotReach.vy + ROBOT_JUMP_SUSTAIN * (robotReach.gravityDir : ℚ) +
        GRAVITY * (robotReach.gravityDir : ℚ), 4) ∧
    (modeVelocity true robotReach).1 ≠
      robotReach.vy + GRAVITY * (robotReach.gravityDir : ℚ) := by
  refine ⟨?_, ?_, ?_, ?_, ?_, ?_⟩ <;> with_unfolding_all decide

/-- C5 (amended): immediately after the world-bound clamp of a sub-step
the player's y lies in `[0, 360]`, for every incoming state. -/
theorem clamp_keeps_y_in_bounds (s : SimState) :
    0 ≤ (applyBounds s).y ∧ (applyBounds s).y ≤ 360 := by
  unfold applyBounds
  split_ifs with h1 h2
  · norm_num
  · norm_num
  · push_neg at h1 h2
    exact ⟨le_of_lt h2, le_of_lt h1⟩

/-- Counterexample for C5 as stated: a full frame over
`ceilingBlockLevel` (one block at `y = 30`, closer to the upper bound
than `PLAYER_SIZE`) from `ceilingStart` ends with the player alive at
`y = -10`, outside `[0, 360]`: the bound clamp runs before collision
response, and the block top-snap `y := obj.y - PLAYER_SIZE` lands outside
the world range. -/
theorem frame_y_bound_counterexample :
    (updateFrame 5 false 3000 ceilingBlockLevel ceilingStart).1.y = -10 ∧
    (updateFrame 5 false 3000 ceilingBlockLevel ceilingStart).1.isDead = false ∧
    ¬(0 ≤ (updateFrame 5 false 3000 ceilingBlockLevel ceilingStart).1.y ∧
      (updateFrame 5 false 3000 ceilingBlockLevel ceilingStart).1.y ≤ 360) := by
  refine ⟨?_, ?_, ?_⟩ <;> with_unfolding_all decide

/-- C1 (amended): the candidate loop visits objects in index order and
stops early exactly on a lethal outcome: for a live incoming state, the
per-object `break` flag equals the death flag of the produced state, and
the loop on `o :: rest` continues into `rest` (from the possibly
grounded/updated state) precisely when `o`'s outcome was not lethal -
a grounding outcome does not stop the iteration. -/
theorem resolver_stops_only_on_lethal (pvX ipY phX phY : ℚ) (s : SimState)
    (o : GameObject) (rest : List GameObject) (h : s.isDead = false) :
    ((resolveObject pvX ipY phX phY s o).2.2 =
      (resolveObject pvX ipY phX phY s o).1.isDead) ∧
    (resolveObjects pvX ipY phX phY s (o :: rest) =
      if (resolveObject pvX ipY phX phY s o).1.isDead then
        ((resolveObject pvX ipY phX phY s o).1,
          (resolveObject pvX ipY phX phY s o).2.1)
      else
        ((resolveObjects pvX ipY phX phY
            (resolveObject pvX ipY phX phY s o).1 rest).1,
          (resolveObject pvX ipY phX phY s o).2.1 ++
            (resolveObjects pvX ipY phX phY
              (resolveObject pvX ipY phX phY s o).1 rest).2)) := by
  have hb : (resolveObject pvX ipY phX phY s o).2.2 =
      (resolveObject pvX ipY phX phY s o).1.isDead := by
    obtain ⟨t, ox, oy⟩ := o
    cases t <;> simp only [resolveObject, portalMap] <;>
      split_ifs <;> simp [h]
  refine ⟨hb, ?_⟩
  rw [show resolveObjects pvX ipY phX phY s (o :: rest) =
      (if (resolveObject pvX ipY phX phY s o).2.2 then
        ((resolveObject pvX ipY phX phY s o).1,
          (resolveObject pvX ipY phX phY s o).2.1)
      else
        ((resolveObjects pvX ipY phX phY
            (resolveObject pvX ipY phX phY s o).1 rest).1,
          (resolveObject pvX ipY phX phY s o).2.1 ++
            (resolveObjects pvX ipY phX phY
              (resolveObject pvX ipY phX phY s o).1 rest).2)) from rfl]
  rw [hb]

/-- Counterexample for C1 as stated: from the live state `fallingCube`,
the block `landBlock` produces a grounding outcome (snap to `y = 160`,
grounded, alive), yet the next candidate `lateSpike` is still checked and
kills the player; under first-lethal-or-grounding-match-wins the result
for `[landBlock, lateSpike]` would equal the alive result for
`[landBlock]`. -/
theorem resolver_grounding_continues_counterexample :
    (resolveObjects 90 150 104 169 fallingCube [landBlock]).1.isDead = false ∧
    (resolveObjects 90 150 104 169 fallingCube [landBlock]).1.onSurface = true ∧
    (resolveObjects 90 150 104 169 fallingCube [landBlock]).1.y = 160 ∧
    (resolveObjects 90 150 104 169 fallingCube
      [landBlock, lateSpike]).1.isDead = true := by
  refine ⟨?_, ?_, ?_, ?_⟩ <;> with_unfolding_all decide

/-- Witness for C1's amended theorem at the concrete falling-cube state. -/
theorem resolver_stops_only_on_lethal_witness :
    fallingCube.isDead = false ∧
    (resolveObject 90 150 104 169 fallingCube landBlock).2.2 =
      (resolveObject 90 150 104 169 fallingCube landBlock).1.isDead :=
  ⟨rfl, (resolver_stops_only_on_lethal 90 150 104 169 fallingCube landBlock
    [lateSpike] rfl).1⟩

/-- C2: classification of a full-AABB overlap with a block.  Wave mode
dies on any overlap; otherwise, pre-sub-step y at or above the block top
plus the 12-unit tolerance with `vy*gravityDir ≥ 0` and `gravityDir = 1`
snaps the player onto the top (`y = obj.y - PLAYER_SIZE`, `vy = 0`,
grounded); pre-sub-step y at or below the block bottom minus the
tolerance with `vy*gravityDir ≥ 0` and `gravityDir = -1` snaps the player
under the bottom (`y = obj.y + BLOCK_SIZE`, `vy = 0`, grounded); every
other overlap is death. -/
theorem block_collision_classification (pvX ipY phX phY : ℚ) (s : SimState)
    (ox oy : ℚ)
    (hov : s.x < ox + BLOCK_SIZE ∧ s.x + PLAYER_SIZE > ox ∧
      s.y < oy + BLOCK_SIZE ∧ s.y + PLAYER_SIZE > oy) :
    (s.mode = Mode.WAVE →
      resolveObject pvX ipY phX phY s ⟨.BLOCK, ox, oy⟩ =
        ({s with isDead := true}, [Event.death], true)) ∧
    (s.mode ≠ Mode.WAVE →
      ipY + PLAYER_SIZE ≤ oy + 12 → s.vy * (s.gravityDir : ℚ) ≥ 0 →
      s.gravityDir = 1 →
      resolveObject pvX ipY phX phY s ⟨.BLOCK, ox, oy⟩ =
        ({s with
            y := oy - PLAYER_SIZE, vy := 0, isJumping := false
            onSurface := true}, [], false)) ∧
    (s.mode ≠ Mode.WAVE →
      ipY ≥ oy + BLOCK_SIZE - 12 → s.vy * (s.gravityDir : ℚ) ≥ 0 →
      s.gravityDir = -1 →
      resolveObject pvX ipY phX phY s ⟨.BLOCK, ox, oy⟩ =
        ({s with
            y := oy + BLOCK_SIZE, vy := 0, isJumping := false
            onSurface := true}, [], false)) ∧
    (s.mode ≠ Mode.WAVE →
      ¬(ipY + PLAYER_SIZE ≤ oy + 12 ∧ s.vy * (s.gravityDir : ℚ) ≥ 0 ∧
        s.gravityDir = 1) →
      ¬(ipY ≥ oy + BLOCK_SIZE - 12 ∧ s.vy * (s.gravityDir : ℚ) ≥ 0 ∧
        s.gravityDir = -1) →
      resolveObject pvX ipY phX phY s ⟨.BLOCK, ox, oy⟩ =
        ({s with isDead := true}, [Event.death], true)) := by
  refine ⟨?_, ?_, ?_, ?_⟩
  · intro hw
    simp only [resolveObject]
    rw [if_pos hov, if_pos hw]
  · intro hw h1 h2 h3
    simp only [resolveObject]
    rw [if_pos hov, if_neg hw, if_pos ⟨h1, h2, h3⟩]
  · intro hw h1 h2 h3
    have hne : ¬(ipY + PLAYER_SIZE ≤ oy + 12 ∧
        s.vy * (s.gravityDir : ℚ) ≥ 0 ∧ s.gravityDir = 1) := by
      rintro ⟨-, -, hg⟩
      rw [h3] at hg
      exact absurd hg (by decide)
    simp only [resolveObject]
    rw [if_pos hov, if_neg hw, if_neg hne, if_pos ⟨h1, h2, h3⟩]
  · intro hw hn1 hn2
    simp only [resolveObject]
    rw [if_pos hov, if_neg hw, if_neg hn1, if_neg hn2]

/-- Witness for C2 at a concrete cube landing on a block at (200, 320). -/
theorem block_collision_classification_witness :
    (cubeOnBlock.x < 200 + BLOCK_SIZE ∧ cubeOnBlock.x + PLAYER_SIZE > 200 ∧
      cubeOnBlock.y < 320 + BLOCK_SIZE ∧ cubeOnBlock.y + PLAYER_SIZE > 320) ∧
    resolveObject 150 276 194 289 cubeOnBlock ⟨.BLOCK, 200, 320⟩ =
      ({cubeOnBlock with
          y := 320 - PLAYER_SIZE, vy := 0, isJumping := false
          onSurface := true}, [], false) := by
  have hov : cubeOnBlock.x < 200 + BLOCK_SIZE ∧
      cubeOnBlock.x + PLAYER_SIZE > 200 ∧
      cubeOnBlock.y < 320 + BLOCK_SIZE ∧ cubeOnBlock.y + PLAYER_SIZE > 320 := by
    refine ⟨?_, ?_, ?_, ?_⟩ <;> with_unfolding_all decide
  refine ⟨hov, ?_⟩
  exact (block_collision_classification 150 276 194 289 cubeOnBlock 200 320
    hov).2.1 (by decide) (by with_unfolding_all decide)
    (by with_unfolding_all decide) rfl

/-- C3: a portal's effect is gated on the leading edge: if the player's
box overlaps the portal's enlarged 150-unit-tall hit box but the frame's
pre-step right edge `prevX + PLAYER_SIZE` is past the portal's left edge
plus the 15-unit epsilon, the collision has no effect at all - no mode
change, no gravity reset, no morph event. -/
theorem portal_leading_edge_gate (pvX ipY phX phY : ℚ) (s : SimState)
    (t : ObjectType) (m : Mode) (ox oy : ℚ) (hp : portalMap t = some m)
    (hov : s.x < ox + BLOCK_SIZE ∧ s.x + PLAYER_SIZE > ox ∧
      s.y < (oy + BLOCK_SIZE / 2 - 150 / 2) + 150 ∧
      s.y + PLAYER_SIZE > oy + BLOCK_SIZE / 2 - 150 / 2)
    (hgate : ¬(pvX + PLAYER_SIZE ≤ ox + 15)) :
    resolveObject pvX ipY phX phY s ⟨t, ox, oy⟩ = (s, [], false) := by
  cases t <;> simp only [portalMap] at hp <;>
    try exact Option.noConfusion hp
  all_goals
    simp only [resolveObject, portalMap]
    rw [if_pos hov, if_neg hgate]

/-- Witness for C3: a Ship-mode player straddling a Ball portal beyond
the epsilon (pre-step right edge `190 + 40 = 230 > 215`): no effect. -/
theorem portal_leading_edge_gate_witness :
    ¬((190 : ℚ) + PLAYER_SIZE ≤ 200 + 15) ∧
    resolveObject 190 180 194 184 shipStraddling ⟨.PORTAL_BALL, 200, 160⟩ =
      (shipStraddling, [], false) := by
  have hgate : ¬((190 : ℚ) + PLAYER_SIZE ≤ 200 + 15) := by
    with_unfolding_all decide
  refine ⟨hgate, ?_⟩
  exact portal_leading_edge_gate 190 180 194 184 shipStraddling
    .PORTAL_BALL Mode.BALL 200 160 rfl
    (by refine ⟨?_, ?_, ?_, ?_⟩ <;> with_unfolding_all decide) hgate

/-- C8: a collision with a portal whose kind maps to the player's current
mode leaves the whole state unchanged and emits no event (in particular
no morph event and no gravity reset), whether or not the leading-edge
gate triggers. -/
theorem portal_same_mode_noop (pvX ipY phX phY : ℚ) (s : SimState)
    (t : ObjectType) (ox oy : ℚ) (hp : portalMap t = some s.mode) :
    resolveObject pvX ipY phX phY s ⟨t, ox, oy⟩ = (s, [], false) := by
  cases t <;> simp only [portalMap] at hp <;>
    try exact Option.noConfusion hp
  all_goals
    have hm := (Option.some.injEq _ _).mp hp
    simp only [resolveObject, portalMap]
    split_ifs with h1 h2 h3
    · exact absurd hm.symm h3
    · rw [hm]
    · rfl
    · rfl

/-- Witness for C8: a Ship-mode player entering a Ship portal through the
leading edge (gate and overlap both hold): complete no-op. -/
theorem portal_same_mode_noop_witness :
    portalMap .PORTAL_SHIP = some shipStraddling.mode ∧
    resolveObject 150 180 194 184 shipStraddling ⟨.PORTAL_SHIP, 200, 160⟩ =
      (shipStraddling, [], false) :=
  ⟨rfl, portal_same_mode_noop 150 180 194 184 shipStraddling
    .PORTAL_SHIP 200 160 rfl⟩

/-- C6: `winDistance` is `max(MIN_WIN_DISTANCE, maxObjectX + 1000)` and
equals `MIN_WIN_DISTANCE` for an empty level (an empty level is handled,
not an error); completion is `min(100, x / winDistance * 100)`; and for a
frame entered alive, the win outcome triggers exactly when the post-frame
x exceeds the threshold. -/
theorem win_distance_properties :
    winDistance [] = MIN_WIN_DISTANCE ∧
    (∀ objs : List GameObject,
      winDistance objs = max MIN_WIN_DISTANCE (lastObjX objs + 1000)) ∧
    (∀ x winX : ℚ, completionPct x winX = min 100 (x / winX * 100)) ∧
    (∀ (speed : ℚ) (held : Bool) (winX : ℚ) (level : List GameObject)
        (s : SimState), s.isDead = false →
      ((updateFrame speed held winX level s).2.2 = true ↔
        (updateFrame speed held winX level s).1.x > winX)) := by
  refine ⟨?_, fun _ => rfl, fun _ _ => rfl, ?_⟩
  · rw [winDistance, show lastObjX [] = 0 from rfl,
      show (0 : ℚ) + 1000 = 1000 by norm_num]
    exact max_eq_left (by norm_num [MIN_WIN_DISTANCE])
  · intro speed held winX level s h
    simp only [updateFrame, h, Bool.false_eq_true, if_false]
    exact decide_eq_true_iff

/-- Witness for C6's win conjunct at the initial state on an empty
level. -/
theorem win_distance_properties_witness :
    initState.isDead = false ∧
    ((updateFrame 5 false 3000 [] initState).2.2 = true ↔
      (updateFrame 5 false 3000 [] initState).1.x > 3000) :=
  ⟨rfl, win_distance_properties.2.2.2 5 false 3000 [] initState rfl⟩

/-! ### Helper lemmas about `gravityDir` for the change-source theorem -/

/-- Resolving one object either preserves `gravityDir` or resets it to 1
while emitting a portal-morph event. -/
theorem resolveObject_gravityDir (pvX ipY phX phY : ℚ) (s : SimState)
    (o : GameObject) :
    (resolveObject pvX ipY phX phY s o).1.gravityDir = s.gravityDir ∨
    ((resolveObject pvX ipY phX phY s o).1.gravityDir = 1 ∧
      ∃ t, Event.morph t ∈ (resolveObject pvX ipY phX phY s o).2.1) := by
  obtain ⟨t, ox, oy⟩ := o
  cases t <;> simp only [resolveObject, portalMap] <;> split_ifs <;>
    simp_all

/-- The candidate loop either preserves `gravityDir` or resets it to 1
while emitting a portal-morph event. -/
theorem resolveObjects_gravityDir (pvX ipY phX phY : ℚ)
    (l : List GameObject) :
    ∀ s : SimState,
      (resolveObjects pvX ipY phX phY s l).1.gravityDir = s.gravityDir ∨
      ((resolveObjects pvX ipY phX phY s l).1.gravityDir = 1 ∧
        ∃ t, Event.morph t ∈ (resolveObjects pvX ipY phX phY s l).2) := by
  induction l with
  | nil => intro s; exact Or.inl rfl
  | cons o rest ih =>
    intro s
    have h1 := resolveObject_gravityDir pvX ipY phX phY s o
    have h2 := ih (resolveObject pvX ipY phX phY s o).1
    simp only [resolveObjects]
    split
    · exact h1
    · dsimp only
      rcases h2 with h2a | ⟨h2b, t2, ht2⟩
      · rw [h2a]
        rcases h1 with h1a | ⟨h1b, t1, ht1⟩
        · exact Or.inl h1a
        · exact Or.inr ⟨h1b, t1, List.mem_append_left _ ht1⟩
      · exact Or.inr ⟨h2b, t2, List.mem_append_right _ ht2⟩

/-- The world-bound clamp never touches `gravityDir`. -/
theorem applyBounds_gravityDir (s : SimState) :
    (applyBounds s).gravityDir = s.gravityDir := by
  simp only [applyBounds]
  split_ifs <;> rfl

/-- One sub-step either preserves `gravityDir` or resets it to 1 while
emitting a portal-morph event. -/
theorem subStep_gravityDir (level : List GameObject)
    (pvX stepX stepY : ℚ) (s : SimState) :
    (subStep level pvX stepX stepY s).1.gravityDir = s.gravityDir ∨
    ((subStep level pvX stepX stepY s).1.gravityDir = 1 ∧
      ∃ t, Event.morph t ∈ (subStep level pvX stepX stepY s).2) := by
  have hg : (applyBounds
      {s with x := s.x + stepX, y := s.y + stepY}).gravityDir =
      s.gravityDir := applyBounds_gravityDir _
  have h := resolveObjects_gravityDir pvX s.y
    ((applyBounds {s with x := s.x + stepX, y := s.y + stepY}).x + 4)
    ((applyBounds {s with x := s.x + stepX, y := s.y + stepY}).y + 4)
    (gather level (applyBounds {s with x := s.x + stepX, y := s.y + stepY}).x)
    (applyBounds {s with x := s.x + stepX, y := s.y + stepY})
  rw [hg] at h
  exact h

/-- The sub-step loop either preserves `gravityDir` or resets it to 1
while emitting a portal-morph event. -/
theorem stepsLoop_gravityDir (level : List GameObject)
    (pvX stepX stepY : ℚ) (n : ℕ) :
    ∀ s : SimState,
      (stepsLoop level pvX stepX stepY n s).1.gravityDir = s.gravityDir ∨
      ((stepsLoop level pvX stepX stepY n s).1.gravityDir = 1 ∧
        ∃ t, Event.morph t ∈ (stepsLoop level pvX stepX stepY n s).2) := by
  induction n with
  | zero => intro s; exact Or.inl rfl
  | succ n ih =>
    intro s
    simp only [stepsLoop]
    split
    · exact Or.inl rfl
    · dsimp only
      have h1 := subStep_gravityDir level pvX stepX stepY s
      have h2 := ih (subStep level pvX stepX stepY s).1
      rcases h2 with h2a | ⟨h2b, t2, ht2⟩
      · rw [h2a]
        rcases h1 with h1a | ⟨h1b, t1, ht1⟩
        · exact Or.inl h1a
        · exact Or.inr ⟨h1b, t1, List.mem_append_left _ ht1⟩
      · exact Or.inr ⟨h2b, t2, List.mem_append_right _ ht2⟩

/-- The discrete interaction never changes the player's mode. -/
theorem triggerInteraction_mode (a : Bool) (level : List GameObject)
    (s : SimState) : (triggerInteraction a level s).1.mode = s.mode := by
  obtain ⟨x, y, vy, mode, g, d, j, os, fr, ab⟩ := s
  cases mode <;> simp only [triggerInteraction] <;> split_ifs <;> rfl

/-- If the discrete interaction changes `gravityDir`, the mode was Ball,
Spider or Swing. -/
theorem triggerInteraction_gravityDir (a : Bool) (level : List GameObject)
    (s : SimState)
    (h : (triggerInteraction a level s).1.gravityDir ≠ s.gravityDir) :
    s.mode = Mode.BALL ∨ s.mode = Mode.SPIDER ∨ s.mode = Mode.SWING := by
  by_contra hc
  push_neg at hc
  apply h
  obtain ⟨x, y, vy, mode, g, d, j, os, fr, ab⟩ := s
  cases mode
  case BALL => exact absurd rfl hc.1
  case SPIDER => exact absurd rfl hc.2.1
  case SWING => exact absurd rfl hc.2.2
  all_goals simp only [triggerInteraction]
  all_goals split_ifs <;> rfl

/-- The end-of-frame auto-interaction phase never changes the mode. -/
theorem autoPhase_mode (held : Bool) (level : List GameObject)
    (s : SimState) : (autoPhase held level s).1.mode = s.mode := by
  simp only [autoPhase]
  split_ifs
  · exact triggerInteraction_mode true level s
  · rfl
  · rfl

/-- If the auto-interaction phase changes `gravityDir`, the mode was
Ball, Spider or Swing. -/
theorem autoPhase_gravityDir (held : Bool) (level : List GameObject)
    (s : SimState)
    (h : (autoPhase held level s).1.gravityDir ≠ s.gravityDir) :
    s.mode = Mode.BALL ∨ s.mode = Mode.SPIDER ∨ s.mode = Mode.SWING := by
  apply triggerInteraction_gravityDir true level s
  intro he
  apply h
  simp only [autoPhase]
  split_ifs
  · exact he
  · rfl
  · rfl

/-- Unfolding of `updateFrame` for a frame entered alive. -/
theorem updateFrame_eq (speed : ℚ) (held : Bool) (winX : ℚ)
    (level : List GameObject) (s : SimState) (h : s.isDead = false) :
    updateFrame speed held winX level s =
      (let s1 := {s with
          vy := clampVy (modeVelocity held s).1
          robotJumpFrames := (modeVelocity held s).2};
       let r := stepsLoop level s.x (speed / ((steps speed : ℤ) : ℚ))
          (s1.vy / ((steps speed : ℤ) : ℚ)) (steps speed).toNat s1;
       let a := autoPhase held level r.1;
       (a.1, r.2 ++ a.2, decide (a.1.x > winX))) := by
  simp only [updateFrame, h, Bool.false_eq_true, if_false]

/-- C4 (amended): `gravityDir` changes only through (a) a discrete
interaction while in Ball, Spider or Swing mode, or (b) a reset to 1 by a
portal collision that changes the mode: if `triggerInteraction` changes
`gravityDir` the mode was Ball, Spider or Swing; and if a frame changes
`gravityDir`, then either the new value is 1 and a portal-morph event was
emitted in that frame, or the frame's auto-interaction flipped it, in
which case the player (whose mode the interaction does not change) ends
the frame in Ball, Spider or Swing mode. -/
theorem gravity_dir_change_sources :
    (∀ (a : Bool) (lvl : List GameObject) (s : SimState),
      (triggerInteraction a lvl s).1.gravityDir ≠ s.gravityDir →
        s.mode = Mode.BALL ∨ s.mode = Mode.SPIDER ∨ s.mode = Mode.SWING) ∧
    (∀ (speed : ℚ) (held : Bool) (winX : ℚ) (lvl : List GameObject)
        (s : SimState),
      (updateFrame speed held winX lvl s).1.gravityDir ≠ s.gravityDir →
        ((updateFrame speed held winX lvl s).1.gravityDir = 1 ∧
          ∃ t, Event.morph t ∈ (updateFrame speed held winX lvl s).2.1) ∨
        ((updateFrame speed held winX lvl s).1.mode = Mode.BALL ∨
         (updateFrame speed held winX lvl s).1.mode = Mode.SPIDER ∨
         (updateFrame speed held winX lvl s).1.mode = Mode.SWING)) := by
  constructor
  · exact fun a lvl s h => triggerInteraction_gravityDir a lvl s h
  · intro speed held winX lvl s h
    cases hd : s.isDead with
    | true =>
      exfalso
      apply h
      simp [updateFrame, hd]
    | false =>
      rw [updateFrame_eq speed held winX lvl s hd] at h ⊢
      dsimp only at h ⊢
      by_cases ha : (autoPhase held lvl
          (stepsLoop lvl s.x (speed / ((steps speed : ℤ) : ℚ))
            (clampVy (modeVelocity held s).1 / ((steps speed : ℤ) : ℚ))
            (steps speed).toNat
            {s with
              vy := clampVy (modeVelocity held s).1
              robotJumpFrames := (modeVelocity held s).2}).1).1.gravityDir =
          (stepsLoop lvl s.x (speed / ((steps speed : ℤ) : ℚ))
            (clampVy (modeVelocity held s).1 / ((steps speed : ℤ) : ℚ))
            (steps speed).toNat
            {s with
              vy := clampVy (modeVelocity held s).1
              robotJumpFrames := (modeVelocity held s).2}).1.gravityDir
      · rcases stepsLoop_gravityDir lvl s.x
            (speed / ((steps speed : ℤ) : ℚ))
            (clampVy (modeVelocity held s).1 / ((steps speed : ℤ) : ℚ))
            (steps speed).toNat
            {s with
              vy := clampVy (modeVelocity held s).1
              robotJumpFrames := (modeVelocity held s).2} with
          hl | ⟨hl1, t1, ht1⟩
        · exact absurd (ha.trans hl) h
        · exact Or.inl ⟨ha.trans hl1, t1, List.mem_append_left _ ht1⟩
      · right
        have hm := autoPhase_mode held lvl
          (stepsLoop lvl s.x (speed / ((steps speed : ℤ) : ℚ))
            (clampVy (modeVelocity held s).1 / ((steps speed : ℤ) : ℚ))
            (steps speed).toNat
            {s with
              vy := clampVy (modeVelocity held s).1
              robotJumpFrames := (modeVelocity held s).2}).1
        rw [hm]
        exact autoPhase_gravityDir held lvl _ ha

/-- Witness for C4's amended theorem: a grounded Ball player holding the
input flips gravity through the frame's auto-interaction. -/
theorem gravity_dir_change_sources_witness :
    ((updateFrame 5 true 3000 [] ballOnFloor).1.gravityDir ≠
      ballOnFloor.gravityDir) ∧
    (((updateFrame 5 true 3000 [] ballOnFloor).1.gravityDir = 1 ∧
        ∃ t, Event.morph t ∈ (updateFrame 5 true 3000 [] ballOnFloor).2.1) ∨
      ((updateFrame 5 true 3000 [] ballOnFloor).1.mode = Mode.BALL ∨
       (updateFrame 5 true 3000 [] ballOnFloor).1.mode = Mode.SPIDER ∨
       (updateFrame 5 true 3000 [] ballOnFloor).1.mode = Mode.SWING)) := by
  have hne : (updateFrame 5 true 3000 [] ballOnFloor).1.gravityDir ≠
      ballOnFloor.gravityDir := by
    with_unfolding_all decide
  exact ⟨hne, gravity_dir_change_sources.2 5 true 3000 [] ballOnFloor hne⟩

/-- Counterexample for C4 as stated: a Swing-mode interaction in mid air
flips `gravityDir` from 1 to -1: Swing is neither Ball nor Spider, the
mode does not change, and the new value is not the portal reset value 1,
so neither of the claim's two permitted sources applies. -/
theorem gravity_dir_swing_counterexample :
    swingMidAir.mode = Mode.SWING ∧
    swingMidAir.mode ≠ Mode.BALL ∧ swingMidAir.mode ≠ Mode.SPIDER ∧
    swingMidAir.gravityDir = 1 ∧
    (triggerInteraction false [] swingMidAir).1.gravityDir = -1 ∧
    (triggerInteraction false [] swingMidAir).1.mode = swingMidAir.mode := by
  refine ⟨rfl, ?_, ?_, rfl, ?_, rfl⟩ <;> with_unfolding_all decide

end PuppetDash
